import Mathlib

/-!
Verification of the throttled fire-and-forget dispatch core of the
H4_BigData load generator (`src/main.rs`, `src/lib.rs`).

The Rust code is shallowly embedded:

* `f32` values are modelled by their exact rational values; the single
  floating-point operation the generator performs (`random::<f32>() * 10.0`)
  is modelled by the exact product followed by IEEE-754 round-to-nearest-even
  onto the binary32 grid (`roundF32`), valid for the positive normal range in
  which all generated consumptions lie.
* `rand`'s `random_range(1_000..=9_999)` on `u32` uses Lemire's widening
  multiplication: an accepted 32-bit draw `x` maps to
  `1000 + (x * 9000) >> 32`; `random::<f32>()` maps a 32-bit draw `y` to
  `(y >> 8) / 2^24`, which is exact in binary32.
* The wall clock is a parameter: `SystemTime::now().duration_since(UNIX_EPOCH)`
  is an integer number of milliseconds, negative when the clock is before the
  Unix epoch (in which case `.expect` panics, modelled as `Option.none`).
-/

namespace H4BigData

/-- Round-half-to-even of a rational to an integer (the tie-breaking rule of
IEEE-754 round-to-nearest-even, applied to the scaled significand). -/
def rhe (q : ℚ) : ℤ :=
  if q - ⌊q⌋ < 1/2 then ⌊q⌋
  else if q - ⌊q⌋ > 1/2 then ⌊q⌋ + 1
  else if Even ⌊q⌋ then ⌊q⌋ else ⌊q⌋ + 1

/-- IEEE-754 binary32 round-to-nearest-even of a nonnegative rational in the
normal range: the significand grid of the binade of `q` has spacing
`2 ^ (Int.log 2 q - 23)`. Nonpositive inputs map to `0` (only ever applied
at `q = 0` there). -/
def roundF32 (q : ℚ) : ℚ :=
  if q ≤ 0 then 0
  else (rhe (q / 2 ^ (Int.log 2 q - 23)) : ℚ) * 2 ^ (Int.log 2 q - 23)

/-- The `rand` crate's `UniformInt<u32>` sample for `random_range(1_000..=9_999)`:
Lemire's method maps an accepted 32-bit draw `x` to
`1000 + ((x * 9000) >> 32)`. -/
def randomRange1000to9999 (x : ℕ) : ℕ :=
  1000 + x % 2 ^ 32 * 9000 / 2 ^ 32

/-- The `rand` crate's `StandardUniform` sample for `f32`: the high 24 bits of a 32-bit
draw `y`, scaled by `2⁻²⁴`. Both the int-to-float conversion and the scaling
are exact in binary32, so the value is the exact rational. -/
def randomF32 (y : ℕ) : ℚ :=
  (y % 2 ^ 32 / 2 ^ 8 : ℕ) / 2 ^ 24

/-- Wrapper type for `f32` when used as mWh (`MilliwattHours(pub f32)`),
the `f32` modelled by its exact rational value. -/
structure MilliwattHours where
  val : ℚ
deriving DecidableEq

/-- A message from or to a Kafka cluster: `customer_id: u32`,
`consumption: MilliwattHours`, `timestamp: u128` (ms since the Unix epoch). -/
structure Message where
  customer_id : ℕ
  consumption : MilliwattHours
  timestamp : ℕ
deriving DecidableEq

/-- Constructor `Message::new`. -/
def Message.new (customer_id : ℕ) (consumption : MilliwattHours)
    (timestamp : ℕ) : Message :=
  { customer_id := customer_id, consumption := consumption,
    timestamp := timestamp }

/-- The two 32-bit draws `Message::with_rng` takes from the thread-local RNG:
one (accepted) draw for `random_range(1_000..=9_999)` and one for
`random::<f32>()`. -/
structure RngDraws where
  cidRaw : ℕ
  f32Raw : ℕ
deriving DecidableEq

/-- Generator `Message::with_rng`: randomized customer id and consumption, wall-clock
timestamp. `clockMillis` is `SystemTime::now() - UNIX_EPOCH` in milliseconds;
when it is negative, `.expect("Time went backwards!")` panics and no message
is produced (`none`). `consumption` is `random::<f32>() * 10.0`: the exact
product rounded to binary32. -/
def Message.with_rng (draws : RngDraws) (clockMillis : ℤ) : Option Message :=
  if clockMillis < 0 then none
  else
    some (Message.new (randomRange1000to9999 draws.cidRaw)
      ⟨roundF32 (randomF32 draws.f32Raw * 10)⟩ clockMillis.toNat)

/-! ### Bounds on round-half-to-even -/

lemma rhe_le (q : ℚ) : (rhe q : ℚ) ≤ q + 1/2 := by
  unfold rhe
  split_ifs with h1 h2 h3
  · have := Int.floor_le q
    linarith
  · push_cast
    linarith
  · have := Int.floor_le q
    linarith
  · push_cast
    linarith

lemma rhe_nonneg (q : ℚ) (h : 0 ≤ q) : 0 ≤ rhe q := by
  have hfl : 0 ≤ ⌊q⌋ := Int.floor_nonneg.mpr h
  unfold rhe
  split_ifs <;> omega

/-! ### Bounds on binary32 rounding -/

lemma roundF32_nonneg (q : ℚ) : 0 ≤ roundF32 q := by
  unfold roundF32
  split_ifs with h0
  · exact le_refl 0
  · push_neg at h0
    have hpow : (0 : ℚ) < 2 ^ (Int.log 2 q - 23) := by positivity
    have hdiv : 0 ≤ q / 2 ^ (Int.log 2 q - 23) := by positivity
    have := rhe_nonneg _ hdiv
    positivity

/-- If `0 < q < 16` then the binade exponent of `q` is at most 3, so the grid
spacing `2 ^ (e - 23)` is at most `2 ^ (-20)`. -/
lemma log2_le_three {q : ℚ} (h0 : 0 < q) (h16 : q < 16) : Int.log 2 q ≤ 3 := by
  by_contra hlt
  push_neg at hlt
  have h4 : (4 : ℤ) ≤ Int.log 2 q := hlt
  have hle : (2 : ℚ) ^ (4 : ℤ) ≤ 2 ^ Int.log 2 q :=
    zpow_le_zpow_right₀ (by norm_num) h4
  have hself : (2 : ℚ) ^ Int.log 2 q ≤ q := Int.zpow_log_le_self (by norm_num) h0
  have : (16 : ℚ) ≤ q := by
    calc (16 : ℚ) = 2 ^ (4 : ℤ) := by norm_num
    _ ≤ 2 ^ Int.log 2 q := hle
    _ ≤ q := hself
  linarith

/-- Key rounding bound: binary32 rounding moves a value in `(0, 16)` up by at
most half the `[8,16)` grid spacing, `2⁻²¹`. -/
lemma roundF32_le (q : ℚ) (h0 : 0 < q) (h16 : q < 16) :
    roundF32 q ≤ q + 2 ^ (-21 : ℤ) := by
  unfold roundF32
  split_ifs with hq
  · linarith
  · set e : ℤ := Int.log 2 q with he
    have hpow : (0 : ℚ) < 2 ^ (e - 23) := by positivity
    have hb := rhe_le (q / 2 ^ (e - 23))
    have h1 : (rhe (q / 2 ^ (e - 23)) : ℚ) * 2 ^ (e - 23) ≤
        (q / 2 ^ (e - 23) + 1/2) * 2 ^ (e - 23) := by
      exact mul_le_mul_of_nonneg_right hb (le_of_lt hpow)
    have h2 : (q / 2 ^ (e - 23) + 1/2) * 2 ^ (e - 23) =
        q + 2 ^ (e - 23) / 2 := by
      field_simp
      ring
    have he3 : e ≤ 3 := log2_le_three h0 h16
    have h3 : (2 : ℚ) ^ (e - 23) / 2 = 2 ^ (e - 24) := by
      rw [zpow_sub₀ (by norm_num : (2:ℚ) ≠ 0), zpow_sub₀ (by norm_num : (2:ℚ) ≠ 0)]
      ring
    have h4 : (2 : ℚ) ^ (e - 24) ≤ 2 ^ (-21 : ℤ) :=
      zpow_le_zpow_right₀ (by norm_num) (by omega)
    calc (rhe (q / 2 ^ (e - 23)) : ℚ) * 2 ^ (e - 23) ≤
        q + 2 ^ (e - 23) / 2 := by rw [← h2]; exact h1
    _ = q + 2 ^ (e - 24) := by rw [h3]
    _ ≤ q + 2 ^ (-21 : ℤ) := by linarith

/-! ### The dispatch loop and the delivery tracker

`main`'s loop keeps a `Vec<JoinHandle<()>>` of spawned logging tasks.
The `Vec` is modelled as a `List` in the same order as the Rust vector
(index 0 first): `Vec::push` appends at the end, `Vec::pop` removes the last
element. Each spawned task awaits the broker's delivery future and logs one
of three outcomes; a `JoinHandle` awaited in `drain_threadpool` either yields
the completed task (whose log is observed at that synchronization point) or a
join error. -/

/-- The result of the broker delivery future inside a spawned task:
`Ok((partition, offset))`, `Err((KafkaError, msg))`, or a `JoinError`-style
cancellation of the producer future. -/
inductive DeliveryResult where
  | delivered (id : ℤ)
  | brokerRejected (err : String)
  | producerCancelled (err : String)
deriving DecidableEq

/-- The eventual result of awaiting one `JoinHandle<()>`: either the task ran
to completion (having observed `r` from the delivery future), or the join
itself failed. -/
inductive JoinOutcome where
  | completed (r : DeliveryResult)
  | joinFailed (err : String)
deriving DecidableEq

/-- A structured log entry at one of the three levels the code emits. -/
inductive LogEntry where
  | info (s : String)
  | error (s : String)
  | warn (s : String)
deriving DecidableEq

/-- The log the spawned task body emits for its delivery result
(`info!`/`error!`/`warn!` in the `tokio::spawn` closure). -/
def taskLog : DeliveryResult → LogEntry
  | DeliveryResult.delivered id => LogEntry.info ("Produced Message: " ++ toString id)
  | DeliveryResult.brokerRejected e => LogEntry.error ("Kafka Error: " ++ e)
  | DeliveryResult.producerCancelled e => LogEntry.warn ("Producer Cancelled: " ++ e)

/-- The log observed when `drain_threadpool` awaits one handle: the task's
own log when the join succeeds, or `error!("Failed to join thread: {e}")`
when the join fails (after which the drain loop continues). -/
def awaitHandle : JoinOutcome → LogEntry
  | JoinOutcome.completed r => taskLog r
  | JoinOutcome.joinFailed e => LogEntry.error ("Failed to join thread: " ++ e)

/-- The `while let Some(thread) = handles.pop()` loop: repeatedly remove the
LAST element of the vector and await it, collecting the logs in await order,
until the vector is empty. -/
def popAwaitAll (hs : List JoinOutcome) : List LogEntry :=
  match hs with
  | [] => []
  | a :: t =>
    awaitHandle ((a :: t).getLast (List.cons_ne_nil a t)) ::
      popAwaitAll (a :: t).dropLast
termination_by hs.length
decreasing_by simp [List.length_dropLast]

/-- The order in which the pop loop awaits the handles (same recursion as
`popAwaitAll`, returning the handles instead of their logs). -/
def popOrder (hs : List JoinOutcome) : List JoinOutcome :=
  match hs with
  | [] => []
  | a :: t =>
    (a :: t).getLast (List.cons_ne_nil a t) :: popOrder (a :: t).dropLast
termination_by hs.length
decreasing_by simp [List.length_dropLast]

/-- The function `drain_threadpool(handles, limit)`: return immediately when
`handles.len() < limit`; otherwise log `"Draining thread pool..."` and pop
and await every handle until the vector is empty. Returns the vector after
the call together with the logs it caused to be observed. -/
def drain_threadpool (handles : List JoinOutcome) (limit : ℕ) :
    List JoinOutcome × List LogEntry :=
  if handles.length < limit then (handles, [])
  else ([], LogEntry.info "Draining thread pool..." :: popAwaitAll handles)

/-- The environment of one loop iteration: the two RNG draws, the wall
clock, `serde_json::to_string`'s result, and `producer.send_result`'s
result (`Err(KafkaError)` synchronously, or the eventual outcome of the
spawned task awaiting the delivery future). -/
structure IterEnv where
  draws : RngDraws
  clockMillis : ℤ
  serialized : Except String String
  submitResult : Except String JoinOutcome

/-- The two conditions that abort the program from inside the loop: the
`expect` panic on a pre-epoch clock, and the `?` on serialization failure. -/
inductive Fatal where
  | clockBeforeEpoch
  | serializeError (e : String)
deriving DecidableEq

/-- One iteration of `main`'s `loop`: generate a message (pre-epoch clock is
fatal), serialize it (failure is fatal via `?`), submit it (synchronous
failure logs `error!("Kafka Error: {e}")` and `continue`s with the handle
vector unchanged), otherwise push the spawned task's handle and call
`drain_threadpool(&mut handles, limit)`. Returns the handle vector at the
end of the iteration and the logs of the iteration. -/
def loopIter (limit : ℕ) (env : IterEnv) (handles : List JoinOutcome) :
    Except Fatal (List JoinOutcome × List LogEntry) :=
  match Message.with_rng env.draws env.clockMillis with
  | none => Except.error Fatal.clockBeforeEpoch
  | some _message =>
    match env.serialized with
    | Except.error e => Except.error (Fatal.serializeError e)
    | Except.ok _json =>
      match env.submitResult with
      | Except.error e =>
        Except.ok (handles, [LogEntry.error ("Kafka Error: " ++ e)])
      | Except.ok handle => Except.ok (drain_threadpool (handles ++ [handle]) limit)

/-- The handle vectors reachable at the top of `main`'s loop: the loop starts
from `Vec::new()` and each non-fatal iteration transforms the vector by
`loopIter`. -/
inductive Reachable (limit : ℕ) : List JoinOutcome → Prop
  | init : Reachable limit []
  | step (env : IterEnv) (hs hs' : List JoinOutcome) (logs : List LogEntry) :
      Reachable limit hs → loopIter limit env hs = Except.ok (hs', logs) →
      Reachable limit hs'

/-! ### Structure of the pop loop -/

lemma popOrder_eq_reverse (hs : List JoinOutcome) :
    popOrder hs = hs.reverse := by
  induction hs using popOrder.induct with
  | case1 => rw [popOrder]; rfl
  | case2 a t ih =>
    rw [popOrder, ih]
    conv_rhs => rw [← List.dropLast_append_getLast (List.cons_ne_nil a t)]
    rw [List.reverse_append]
    simp

lemma popAwaitAll_eq_map_popOrder (hs : List JoinOutcome) :
    popAwaitAll hs = (popOrder hs).map awaitHandle := by
  induction hs using popOrder.induct with
  | case1 => rw [popAwaitAll, popOrder]; rfl
  | case2 a t ih => rw [popAwaitAll, popOrder, ih]; rfl

lemma popAwaitAll_eq_reverse_map (hs : List JoinOutcome) :
    popAwaitAll hs = hs.reverse.map awaitHandle := by
  rw [popAwaitAll_eq_map_popOrder, popOrder_eq_reverse]

/-- The loop-top invariant: the vector is strictly below the limit at the top
of every iteration (so a drain decision on `hs ++ [h]` sees at most `limit`
handles). -/
lemma reachable_length_lt (limit : ℕ) (hlim : 1 ≤ limit)
    (hs : List JoinOutcome) (hr : Reachable limit hs) : hs.length < limit := by
  induction hr with
  | init => simpa using hlim
  | step env hs hs' logs _hr hstep ih =>
    unfold loopIter at hstep
    split at hstep
    · simp at hstep
    · split at hstep
      · simp at hstep
      · split at hstep
        · simp only [Except.ok.injEq, Prod.mk.injEq] at hstep
          exact hstep.1 ▸ ih
        · simp only [Except.ok.injEq] at hstep
          unfold drain_threadpool at hstep
          split at hstep
          · rename_i handle hlen
            simp only [Prod.mk.injEq] at hstep
            rw [← hstep.1]
            simpa using hlen
          · simp only [Prod.mk.injEq] at hstep
            rw [← hstep.1]
            simpa using hlim

/-! ### The consumption value is below 10

`random::<f32>()` yields `k / 2^24` with `k < 2^24`, so the exact product
with 10 is at most `10 - 10/2^24`, which is more than half a `[8,16)`-binade
grid step (`2⁻²¹`) below 10; rounding therefore stays strictly below 10. -/

lemma roundF32_unit_mul_ten_lt (k : ℕ) (hk : k < 2 ^ 24) :
    roundF32 ((k : ℚ) / 2 ^ 24 * 10) < 10 := by
  rcases Nat.eq_zero_or_pos k with hk0 | hkpos
  · subst hk0
    norm_num [roundF32]
  · have hkq : (0 : ℚ) < (k : ℚ) := by exact_mod_cast hkpos
    have h0 : (0 : ℚ) < (k : ℚ) / 2 ^ 24 * 10 := by positivity
    have hkub : (k : ℚ) ≤ 2 ^ 24 - 1 := by
      have h1 : (k : ℚ) ≤ ((2 ^ 24 - 1 : ℕ) : ℚ) := by
        exact_mod_cast Nat.le_pred_of_lt hk
      calc (k : ℚ) ≤ ((2 ^ 24 - 1 : ℕ) : ℚ) := h1
      _ = 2 ^ 24 - 1 := by norm_num
    have hub : (k : ℚ) / 2 ^ 24 * 10 ≤ 10 - 10 / 2 ^ 24 := by
      rw [div_mul_eq_mul_div, div_le_iff₀ (by norm_num : (0:ℚ) < 2 ^ 24)]
      nlinarith
    have h16 : (k : ℚ) / 2 ^ 24 * 10 < 16 := by
      have : (0 : ℚ) < 10 / 2 ^ 24 := by norm_num
      linarith
    have hround := roundF32_le _ h0 h16
    have h21 : (2 : ℚ) ^ (-21 : ℤ) < 10 / 2 ^ 24 := by
      rw [zpow_neg]
      rw [show ((21 : ℤ) : ℤ) = ((21 : ℕ) : ℤ) from rfl, zpow_natCast]
      rw [inv_lt_iff_one_lt_mul₀ (by norm_num)]
      norm_num
    linarith

/-- Evaluation of the generator at all-zero RNG draws: the Lemire sample is
`1000` and the consumption is `0`. -/
lemma with_rng_zero_draws (clock : ℤ) (hc : 0 ≤ clock) :
    Message.with_rng { cidRaw := 0, f32Raw := 0 } clock =
      some (Message.new 1000 ⟨0⟩ clock.toNat) := by
  unfold Message.with_rng randomRange1000to9999 randomF32 roundF32
  rw [if_neg (by omega)]
  norm_num

/-! ### The JSON encoding (serde + serde_json)

`#[derive(Serialize, Deserialize)]` on `Message` encodes it as a JSON object
with the three fields in declaration order; `serde_json::to_string` writes
each number exactly (`u32`, `u128`, and the shortest decimal that parses back
to the same `f32`), so the encoding is modelled as a JSON tree whose numbers
are exact rationals. Deserialization requires `customer_id` to be a `u32`
integer, `timestamp` a `u128` integer, and `consumption` a float. -/

/-- A JSON tree (a number holds the exact rational value of the decimal). -/
inductive Json where
  | num (q : ℚ)
  | str (s : String)
  | obj (fields : List (String × Json))

/-- Deserialize a JSON value as a `u32` (an integer in `[0, 2^32)`). -/
def Json.asU32 : Json → Option ℕ
  | Json.num q =>
    if q.den = 1 ∧ 0 ≤ q.num ∧ q.num < 2 ^ 32 then some q.num.toNat else none
  | _ => none

/-- Deserialize a JSON value as a `u128` (an integer in `[0, 2^128)`). -/
def Json.asU128 : Json → Option ℕ
  | Json.num q =>
    if q.den = 1 ∧ 0 ≤ q.num ∧ q.num < 2 ^ 128 then some q.num.toNat else none
  | _ => none

/-- Deserialize a JSON number as an `f32` (modelled exactly; on a number that
was written by serializing an `f32`, parsing recovers that value). -/
def Json.asF32 : Json → Option ℚ
  | Json.num q => some q
  | _ => none

/-- Serialization `serde_json::to_string(&message)`, as the JSON tree it denotes. -/
def Message.toJson (m : Message) : Json :=
  Json.obj [("customer_id", Json.num m.customer_id),
    ("consumption", Json.num m.consumption.val),
    ("timestamp", Json.num m.timestamp)]

/-- First field of the object with the given name. -/
def Json.getField (fields : List (String × Json)) (name : String) : Option Json :=
  match fields with
  | [] => none
  | (k, v) :: rest => if k = name then some v else Json.getField rest name

/-- Deserialization `serde_json::from_str::<Message>`, on a JSON tree: an object whose three
fields deserialize at their expected types, rejected otherwise. -/
def Message.fromJson : Json → Option Message
  | Json.obj fields =>
    ((Json.getField fields "customer_id").bind Json.asU32).bind fun cid =>
      ((Json.getField fields "consumption").bind Json.asF32).bind fun cons =>
        ((Json.getField fields "timestamp").bind Json.asU128).bind fun ts =>
          some (Message.new cid ⟨cons⟩ ts)
  | _ => none

/-! ### Claim theorems -/

/-- C1: for every handle vector reachable at the top of the dispatch loop
and every newly pushed handle, the drain decision in `drain_threadpool`
sees at most `limit` handles; when the drain pass is triggered
(`limit ≤ len`) the vector holds exactly `limit` handles, and the drain
pass leaves the vector empty. -/
theorem c1_tracker_ceiling_invariant (limit : ℕ) (hlim : 1 ≤ limit)
    (hs : List JoinOutcome) (hr : Reachable limit hs) (h : JoinOutcome) :
    (hs ++ [h]).length ≤ limit ∧
    (limit ≤ (hs ++ [h]).length → (hs ++ [h]).length = limit) ∧
    (limit ≤ (hs ++ [h]).length → (drain_threadpool (hs ++ [h]) limit).1 = []) := by
  have hlt := reachable_length_lt limit hlim hs hr
  refine ⟨by simp; omega, fun hge => by simp at hge ⊢; omega, fun hge => ?_⟩
  unfold drain_threadpool
  rw [if_neg (by omega)]

/-- Witness for C1 at `limit = 1`, the empty initial vector, and one
concrete handle. -/
theorem c1_tracker_ceiling_invariant_witness :
    (([] : List JoinOutcome) ++
        [JoinOutcome.completed (DeliveryResult.delivered 0)]).length ≤ 1 ∧
    (1 ≤ (([] : List JoinOutcome) ++
        [JoinOutcome.completed (DeliveryResult.delivered 0)]).length →
      (([] : List JoinOutcome) ++
        [JoinOutcome.completed (DeliveryResult.delivered 0)]).length = 1) ∧
    (1 ≤ (([] : List JoinOutcome) ++
        [JoinOutcome.completed (DeliveryResult.delivered 0)]).length →
      (drain_threadpool
        (([] : List JoinOutcome) ++
          [JoinOutcome.completed (DeliveryResult.delivered 0)]) 1).1 = []) :=
  c1_tracker_ceiling_invariant 1 (by decide) [] Reachable.init
    (JoinOutcome.completed (DeliveryResult.delivered 0))

/-- C2: `drain_threadpool` is a no-op (vector and logs unchanged) when the
vector is strictly below the limit; otherwise it empties the vector, awaiting
the handles one at a time — the await sequence `popOrder hs` has one entry
per tracked handle and is a permutation of the tracked set — and logs the
drain start followed by one resolution log per awaited handle. -/
theorem c2_drain_noop_or_full_drain (hs : List JoinOutcome) (limit : ℕ) :
    (hs.length < limit → drain_threadpool hs limit = (hs, [])) ∧
    (limit ≤ hs.length →
      (drain_threadpool hs limit).1 = [] ∧
      (drain_threadpool hs limit).2 =
        LogEntry.info "Draining thread pool..." ::
          (popOrder hs).map awaitHandle ∧
      (popOrder hs).length = hs.length ∧ (popOrder hs).Perm hs) := by
  constructor
  · intro hlt
    unfold drain_threadpool
    rw [if_pos hlt]
  · intro hge
    unfold drain_threadpool
    rw [if_neg (by omega)]
    refine ⟨rfl, by simp [popAwaitAll_eq_map_popOrder], ?_, ?_⟩
    · rw [popOrder_eq_reverse]
      simp
    · rw [popOrder_eq_reverse]
      exact List.reverse_perm hs

/-- Witness for C2: both branches at concrete inputs — a two-handle vector
with limit 3 is untouched, and with limit 2 is fully drained with one log
per handle. -/
theorem c2_drain_noop_or_full_drain_witness :
    drain_threadpool [JoinOutcome.completed (DeliveryResult.delivered 7),
      JoinOutcome.joinFailed "x"] 3 =
      ([JoinOutcome.completed (DeliveryResult.delivered 7),
        JoinOutcome.joinFailed "x"], []) ∧
    (drain_threadpool [JoinOutcome.completed (DeliveryResult.delivered 7),
      JoinOutcome.joinFailed "x"] 2).1 = [] :=
  ⟨(c2_drain_noop_or_full_drain _ 3).1 (by decide),
   ((c2_drain_noop_or_full_drain _ 2).2 (by decide)).1⟩

/-- C3: in an iteration whose broker submission fails synchronously (and
whose clock and serialization are healthy), the loop logs
`error!("Kafka Error: {e}")` and continues: the result is `Except.ok` (the
loop proceeds to the next iteration) with the handle vector unchanged — no
handle is registered and the message is dropped, not retried. -/
theorem c3_submit_error_drops_message (limit : ℕ) (env : IterEnv)
    (hs : List JoinOutcome) (hclock : 0 ≤ env.clockMillis)
    (json : String) (hser : env.serialized = Except.ok json)
    (e : String) (hsub : env.submitResult = Except.error e) :
    loopIter limit env hs =
      Except.ok (hs, [LogEntry.error ("Kafka Error: " ++ e)]) := by
  unfold loopIter Message.with_rng
  rw [if_neg (by omega), hser, hsub]

/-- Witness for C3 at a concrete environment with a failed submission. -/
theorem c3_submit_error_drops_message_witness :
    loopIter 4
      { draws := { cidRaw := 0, f32Raw := 0 }, clockMillis := 17,
        serialized := Except.ok "json", submitResult := Except.error "queue full" }
      [JoinOutcome.joinFailed "y"] =
      Except.ok ([JoinOutcome.joinFailed "y"],
        [LogEntry.error ("Kafka Error: " ++ "queue full")]) :=
  c3_submit_error_drops_message 4 _ _ (by decide) "json" rfl "queue full" rfl

/-- C4: an iteration of the dispatch loop aborts the program if and only if
the wall clock is before the Unix epoch or serialization fails — the exactly
two fatal conditions — and a pre-epoch clock produces no `Message` at all.
In all other cases the iteration returns `Except.ok` and the loop continues. -/
theorem c4_exactly_two_fatal_conditions (limit : ℕ) (env : IterEnv)
    (hs : List JoinOutcome) :
    ((∃ f, loopIter limit env hs = Except.error f) ↔
      env.clockMillis < 0 ∨ ∃ e, env.serialized = Except.error e) ∧
    (env.clockMillis < 0 → Message.with_rng env.draws env.clockMillis = none) := by
  constructor
  · constructor
    · rintro ⟨f, hf⟩
      by_cases hc : env.clockMillis < 0
      · exact Or.inl hc
      · unfold loopIter Message.with_rng at hf
        rw [if_neg hc] at hf
        rcases hser : env.serialized with e | j
        · exact Or.inr ⟨e, rfl⟩
        · rw [hser] at hf
          rcases hsub : env.submitResult with e | handle
          · rw [hsub] at hf
            simp at hf
          · rw [hsub] at hf
            simp at hf
    · rintro (hc | ⟨e, hser⟩)
      · exact ⟨Fatal.clockBeforeEpoch, by
          unfold loopIter Message.with_rng
          rw [if_pos hc]⟩
      · by_cases hc : env.clockMillis < 0
        · exact ⟨Fatal.clockBeforeEpoch, by
            unfold loopIter Message.with_rng
            rw [if_pos hc]⟩
        · exact ⟨Fatal.serializeError e, by
            unfold loopIter Message.with_rng
            rw [if_neg hc, hser]⟩
  · intro hc
    unfold Message.with_rng
    rw [if_pos hc]

/-- Witness for C4: a pre-epoch clock is fatal and produces no message at a
concrete input. -/
theorem c4_exactly_two_fatal_conditions_witness :
    (∃ f, loopIter 4
      { draws := { cidRaw := 0, f32Raw := 0 }, clockMillis := -1,
        serialized := Except.ok "json",
        submitResult := Except.ok (JoinOutcome.joinFailed "y") } [] =
        Except.error f) ∧
    Message.with_rng { cidRaw := 0, f32Raw := 0 } (-1) = none :=
  ⟨(c4_exactly_two_fatal_conditions 4 _ []).1.mpr (Or.inl (by decide)),
   (c4_exactly_two_fatal_conditions 4
      { draws := { cidRaw := 0, f32Raw := 0 }, clockMillis := -1,
        serialized := Except.ok "json",
        submitResult := Except.ok (JoinOutcome.joinFailed "y") } []).2 (by decide)⟩

/-- C5: every message the generator produces has
`1000 ≤ customer_id ≤ 9999` (closed integer range) and
`0 ≤ consumption < 10.0` (half-open, with the binary32 rounding of
`random::<f32>() * 10.0` staying strictly below 10). -/
theorem c5_generated_ranges (draws : RngDraws) (clock : ℤ) (m : Message)
    (hgen : Message.with_rng draws clock = some m) :
    1000 ≤ m.customer_id ∧ m.customer_id ≤ 9999 ∧
    0 ≤ m.consumption.val ∧ m.consumption.val < 10 := by
  unfold Message.with_rng at hgen
  by_cases hc : clock < 0
  · rw [if_pos hc] at hgen
    simp at hgen
  · rw [if_neg hc] at hgen
    simp only [Option.some.injEq] at hgen
    subst hgen
    refine ⟨?_, ?_, ?_, ?_⟩
    · exact Nat.le_add_right 1000 _
    · show 1000 + draws.cidRaw % 2 ^ 32 * 9000 / 2 ^ 32 ≤ 9999
      have hx : draws.cidRaw % 2 ^ 32 < 2 ^ 32 := Nat.mod_lt _ (by norm_num)
      have hdiv : draws.cidRaw % 2 ^ 32 * 9000 / 2 ^ 32 < 9000 := by
        rw [Nat.div_lt_iff_lt_mul (by norm_num : 0 < 2 ^ 32)]
        have h1 : draws.cidRaw % 2 ^ 32 * 9000 < 2 ^ 32 * 9000 :=
          (Nat.mul_lt_mul_right (by norm_num)).mpr hx
        omega
      omega
    · exact roundF32_nonneg _
    · show roundF32 (randomF32 draws.f32Raw * 10) < 10
      unfold randomF32
      have hk : draws.f32Raw % 2 ^ 32 / 2 ^ 8 < 2 ^ 24 := by
        rw [Nat.div_lt_iff_lt_mul (by norm_num : 0 < 2 ^ 8)]
        calc draws.f32Raw % 2 ^ 32 < 2 ^ 32 := Nat.mod_lt _ (by norm_num)
        _ = 2 ^ 24 * 2 ^ 8 := by norm_num
      exact roundF32_unit_mul_ten_lt _ hk

/-- Witness for C5 at concrete RNG draws and a concrete clock. -/
theorem c5_generated_ranges_witness :
    1000 ≤ (Message.new 1000 ⟨0⟩ 5).customer_id ∧
    (Message.new 1000 ⟨0⟩ 5).customer_id ≤ 9999 ∧
    0 ≤ (Message.new 1000 ⟨0⟩ 5).consumption.val ∧
    (Message.new 1000 ⟨0⟩ 5).consumption.val < 10 :=
  c5_generated_ranges { cidRaw := 0, f32Raw := 0 } 5 _
    (with_rng_zero_draws 5 (by decide))

/-- C6: serializing a message to its JSON payload and deserializing the
payload yields a message equal to the original in all three fields (the
round-trip law; the hypotheses are the `u32`/`u128` ranges the Rust field
types guarantee). -/
theorem c6_serialize_roundtrip (m : Message) (hcid : m.customer_id < 2 ^ 32)
    (hts : m.timestamp < 2 ^ 128) :
    Message.fromJson (Message.toJson m) = some m := by
  obtain ⟨cid, ⟨cons⟩, ts⟩ := m
  have hcid2 : cid < 2 ^ 32 := hcid
  have hts2 : ts < 2 ^ 128 := hts
  have hne1 : ("customer_id" : String) ≠ "consumption" := by decide
  have hne2 : ("customer_id" : String) ≠ "timestamp" := by decide
  have hne3 : ("consumption" : String) ≠ "timestamp" := by decide
  have e1 : (Json.getField
      [("customer_id", Json.num (cid : ℚ)), ("consumption", Json.num cons),
       ("timestamp", Json.num (ts : ℚ))] "customer_id").bind Json.asU32 =
      some cid := by
    rw [Json.getField, if_pos rfl, Option.some_bind]
    simp only [Json.asU32]
    rw [if_pos ⟨Rat.den_natCast cid, by rw [Rat.num_natCast]; positivity,
      by rw [Rat.num_natCast]; exact_mod_cast hcid2⟩]
    simp
  have e2 : (Json.getField
      [("customer_id", Json.num (cid : ℚ)), ("consumption", Json.num cons),
       ("timestamp", Json.num (ts : ℚ))] "consumption").bind Json.asF32 =
      some cons := by
    rw [Json.getField, if_neg hne1, Json.getField, if_pos rfl]
    rfl
  have e3 : (Json.getField
      [("customer_id", Json.num (cid : ℚ)), ("consumption", Json.num cons),
       ("timestamp", Json.num (ts : ℚ))] "timestamp").bind Json.asU128 =
      some ts := by
    rw [Json.getField, if_neg hne2, Json.getField, if_neg hne3,
      Json.getField, if_pos rfl, Option.some_bind]
    simp only [Json.asU128]
    rw [if_pos ⟨Rat.den_natCast ts, by rw [Rat.num_natCast]; positivity,
      by rw [Rat.num_natCast]; exact_mod_cast hts2⟩]
    simp
  show ((Json.getField
      [("customer_id", Json.num (cid : ℚ)), ("consumption", Json.num cons),
       ("timestamp", Json.num (ts : ℚ))] "customer_id").bind Json.asU32).bind
    (fun c => ((Json.getField
      [("customer_id", Json.num (cid : ℚ)), ("consumption", Json.num cons),
       ("timestamp", Json.num (ts : ℚ))] "consumption").bind Json.asF32).bind
    fun w => ((Json.getField
      [("customer_id", Json.num (cid : ℚ)), ("consumption", Json.num cons),
       ("timestamp", Json.num (ts : ℚ))] "timestamp").bind Json.asU128).bind
    fun t => some (Message.new c ⟨w⟩ t)) = some (Message.mk cid ⟨cons⟩ ts)
  rw [e1, Option.some_bind, e2, Option.some_bind, e3, Option.some_bind]
  rfl

/-- Witness for C6 at a concrete message. -/
theorem c6_serialize_roundtrip_witness :
    Message.fromJson (Message.toJson (Message.new 1234 ⟨5/2⟩ 999)) =
      some (Message.new 1234 ⟨5/2⟩ 999) :=
  c6_serialize_roundtrip _ (by decide) (by decide)

/-- C7: when a drain pass runs over a vector containing a handle whose task
observed a broker rejection, the rejection is logged
(`error!("Kafka Error: {e}")`), the handles registered before and after it
are still all awaited and logged, and the pass still leaves the vector
empty — the drain is not aborted. -/
theorem c7_rejection_does_not_abort_drain (hs1 hs2 : List JoinOutcome)
    (e : String) (limit : ℕ)
    (htrig : limit ≤
      (hs1 ++ JoinOutcome.completed (DeliveryResult.brokerRejected e) :: hs2).length) :
    (drain_threadpool
      (hs1 ++ JoinOutcome.completed (DeliveryResult.brokerRejected e) :: hs2)
      limit).1 = [] ∧
    (drain_threadpool
      (hs1 ++ JoinOutcome.completed (DeliveryResult.brokerRejected e) :: hs2)
      limit).2 =
      LogEntry.info "Draining thread pool..." ::
        (hs2.reverse.map awaitHandle ++
          LogEntry.error ("Kafka Error: " ++ e) :: hs1.reverse.map awaitHandle) := by
  unfold drain_threadpool
  rw [if_neg (by omega)]
  refine ⟨rfl, ?_⟩
  rw [popAwaitAll_eq_reverse_map]
  simp [awaitHandle, taskLog]

/-- Witness for C7: a rejection handle between two others; all three logs
appear (most recently registered first) and the vector is emptied. -/
theorem c7_rejection_does_not_abort_drain_witness :
    (drain_threadpool
      [JoinOutcome.completed (DeliveryResult.delivered 3),
       JoinOutcome.completed (DeliveryResult.brokerRejected "bad"),
       JoinOutcome.completed (DeliveryResult.delivered 4)] 3).1 = [] ∧
    (drain_threadpool
      [JoinOutcome.completed (DeliveryResult.delivered 3),
       JoinOutcome.completed (DeliveryResult.brokerRejected "bad"),
       JoinOutcome.completed (DeliveryResult.delivered 4)] 3).2 =
      [LogEntry.info "Draining thread pool...",
       LogEntry.info ("Produced Message: " ++ toString (4 : ℤ)),
       LogEntry.error ("Kafka Error: " ++ "bad"),
       LogEntry.info ("Produced Message: " ++ toString (3 : ℤ))] :=
  c7_rejection_does_not_abort_drain
    [JoinOutcome.completed (DeliveryResult.delivered 3)]
    [JoinOutcome.completed (DeliveryResult.delivered 4)] "bad" 3 (by decide)

/-- C8: if the wall clock is non-decreasing between two generate calls, the
timestamps of the two generated messages are non-decreasing. -/
theorem c8_timestamp_monotone (d1 d2 : RngDraws) (t1 t2 : ℤ)
    (m1 m2 : Message) (hclock : t1 ≤ t2)
    (h1 : Message.with_rng d1 t1 = some m1)
    (h2 : Message.with_rng d2 t2 = some m2) :
    m1.timestamp ≤ m2.timestamp := by
  unfold Message.with_rng at h1 h2
  by_cases hc1 : t1 < 0
  · rw [if_pos hc1] at h1
    simp at h1
  · rw [if_neg hc1] at h1
    by_cases hc2 : t2 < 0
    · rw [if_pos hc2] at h2
      simp at h2
    · rw [if_neg hc2] at h2
      simp only [Option.some.injEq] at h1 h2
      subst h1
      subst h2
      show t1.toNat ≤ t2.toNat
      omega

/-- Witness for C8 at concrete clocks 3 ≤ 5. -/
theorem c8_timestamp_monotone_witness :
    (Message.new 1000 ⟨0⟩ 3).timestamp ≤ (Message.new 1000 ⟨0⟩ 5).timestamp :=
  c8_timestamp_monotone { cidRaw := 0, f32Raw := 0 } { cidRaw := 0, f32Raw := 0 }
    3 5 _ _ (by decide) (with_rng_zero_draws 3 (by decide))
    (with_rng_zero_draws 5 (by decide))

/-- C9: a triggered drain pass always leaves the vector empty, whatever the
individual outcomes; in particular a handle whose join itself fails is
logged (`error!("Failed to join thread: {e}")`) and the remaining handles
are still awaited rather than abandoned. -/
theorem c9_join_failure_continues_drain (hs1 hs2 : List JoinOutcome)
    (e : String) (limit : ℕ)
    (htrig : limit ≤ (hs1 ++ JoinOutcome.joinFailed e :: hs2).length) :
    (∀ hs : List JoinOutcome, limit ≤ hs.length →
      (drain_threadpool hs limit).1 = []) ∧
    (drain_threadpool (hs1 ++ JoinOutcome.joinFailed e :: hs2) limit).2 =
      LogEntry.info "Draining thread pool..." ::
        (hs2.reverse.map awaitHandle ++
          LogEntry.error ("Failed to join thread: " ++ e) ::
            hs1.reverse.map awaitHandle) := by
  constructor
  · intro hs hge
    unfold drain_threadpool
    rw [if_neg (by omega)]
  · unfold drain_threadpool
    rw [if_neg (by omega)]
    show LogEntry.info "Draining thread pool..." :: popAwaitAll _ = _
    rw [popAwaitAll_eq_reverse_map]
    simp [awaitHandle]

/-- Witness for C9: a failed join between two delivered handles; the join
failure is logged and the later-registered and earlier-registered handles
are still drained. -/
theorem c9_join_failure_continues_drain_witness :
    (drain_threadpool
      [JoinOutcome.completed (DeliveryResult.delivered 8),
       JoinOutcome.joinFailed "cancelled",
       JoinOutcome.completed (DeliveryResult.delivered 9)] 3).1 = [] ∧
    (drain_threadpool
      [JoinOutcome.completed (DeliveryResult.delivered 8),
       JoinOutcome.joinFailed "cancelled",
       JoinOutcome.completed (DeliveryResult.delivered 9)] 3).2 =
      [LogEntry.info "Draining thread pool...",
       LogEntry.info ("Produced Message: " ++ toString (9 : ℤ)),
       LogEntry.error ("Failed to join thread: " ++ "cancelled"),
       LogEntry.info ("Produced Message: " ++ toString (8 : ℤ))] :=
  ⟨((c9_join_failure_continues_drain
      [JoinOutcome.completed (DeliveryResult.delivered 8)]
      [JoinOutcome.completed (DeliveryResult.delivered 9)] "cancelled" 3
      (by decide)).1 _ (by decide)),
   (c9_join_failure_continues_drain
      [JoinOutcome.completed (DeliveryResult.delivered 8)]
      [JoinOutcome.completed (DeliveryResult.delivered 9)] "cancelled" 3
      (by decide)).2⟩

/-- C10: the pop loop of a triggered drain pass awaits the handles in
exactly the reverse of registration order (`Vec::push` appends at the end,
`Vec::pop` removes from the end), so the drain order is deterministic
last-in-first-out and the logs appear in that order. -/
theorem c10_drain_order_is_lifo (hs : List JoinOutcome) (limit : ℕ)
    (htrig : limit ≤ hs.length) :
    popOrder hs = hs.reverse ∧
    (drain_threadpool hs limit).2 =
      LogEntry.info "Draining thread pool..." :: hs.reverse.map awaitHandle := by
  refine ⟨popOrder_eq_reverse hs, ?_⟩
  unfold drain_threadpool
  rw [if_neg (by omega)]
  rw [popAwaitAll_eq_reverse_map]

/-- Witness for C10: two handles registered in order 1 then 2 are awaited in
order 2 then 1. -/
theorem c10_drain_order_is_lifo_witness :
    popOrder [JoinOutcome.completed (DeliveryResult.delivered 1),
      JoinOutcome.completed (DeliveryResult.delivered 2)] =
      [JoinOutcome.completed (DeliveryResult.delivered 2),
       JoinOutcome.completed (DeliveryResult.delivered 1)] :=
  (c10_drain_order_is_lifo
    [JoinOutcome.completed (DeliveryResult.delivered 1),
     JoinOutcome.completed (DeliveryResult.delivered 2)] 2 (by decide)).1

end H4BigData
